import Mathlib

/-!
Shallow embedding of the Flask backend in `flask_backend/app copy.py`.

The session store is modelled as the value held under the session key
`"history"`: `none` when the key is absent, `some h` when a turn list `h`
is stored.  The remote completion API (Model Gateway) is modelled as a
function from a request record (messages, temperature, max_tokens) to
`Except String String`: `Except.error e` models the call raising an
exception whose stringification is `e`, and `Except.ok r` models a
successful call whose choice content is `r`.  Each HTTP handler becomes a
pure function from the gateway, the incoming session state and the parsed
request body to the outgoing session state, the HTTP status code and the
JSON response body (modelled by a small inductive per response shape).
-/

namespace OpenView

/-- A chat turn, the dict `{"role": r, "content": c}` used throughout the
source. -/
structure Turn where
  role : String
  content : String
deriving DecidableEq, Repr

/-- The fixed system prompt string `SYSTEM_PROMPT` from the source. -/
def SYSTEM_PROMPT : String :=
  "Eres un asistente útil y claro. Responde en español con precisión y brevedad."

/-- The seed turn `{"role": "system", "content": SYSTEM_PROMPT}`. -/
def systemTurn : Turn :=
  { role := "system", content := SYSTEM_PROMPT }

/-- Session state: the value stored under the `"history"` session key, or
`none` when the key is absent. -/
abbrev Session := Option (List Turn)

/-- Embedding of `get_history`: when `"history"` is not in the session it is
initialized to the one-element seed list and stored; the function returns the
updated session state together with the returned sequence. -/
def get_history (s : Session) : Session × List Turn :=
  match s with
  | none => (some [systemTurn], [systemTurn])
  | some h => (some h, h)

/-- Embedding of `add_message`: reads the history via `get_history`, appends
the new turn, and writes the updated list back under the session key. -/
def add_message (s : Session) (role content : String) : Session :=
  some ((get_history s).2 ++ [{ role := role, content := content }])

/-- Embedding of the `index` handler body: `GET /` pops the `"history"` key
when the query string carries `new=1` and leaves the session alone otherwise
(the rendered template is outside the model). -/
def index (s : Session) (newFlag : Option String) : Session :=
  if newFlag = some "1" then none else s

/-- A request to the completion API: the `messages`, `temperature` and
`max_tokens` arguments of `client.chat.completions.create` (the fixed model
name is environment configuration, outside the model). -/
structure GatewayReq where
  messages : List Turn
  temperature : ℚ
  maxTokens : ℕ

/-- The Model Gateway: `Except.error e` models the call raising an exception
with stringification `e`; `Except.ok r` models success with reply text `r`. -/
abbrev Gateway := GatewayReq → Except String String

/-- Parsed JSON body of `POST /api/chat`: `message` is `none` when the key is
absent.  The whole body is wrapped in `Option` at the call sites, with `none`
for an absent or unparseable body (`request.get_json(silent=True)` returning
`None`). -/
structure ChatReqBody where
  message : Option String
deriving DecidableEq, Repr

/-- JSON response bodies emitted by the chat handler: `failure e` is
`{"ok": false, "error": e}` and `success r` is `{"ok": true, "reply": r}`. -/
inductive ChatBodyOut
  | failure (error : String)
  | success (reply : String)
deriving DecidableEq, Repr

/-- Embedding of the Python `str.strip()` method: drop leading and trailing
whitespace characters. -/
def pyStrip (s : String) : String :=
  String.mk
    (((s.data.dropWhile Char.isWhitespace).reverse.dropWhile
      Char.isWhitespace).reverse)

/-- The `user_msg` expression of the chat handler:
`(data.get("message", "")).strip()` after `data = get_json(silent=True) or` an
empty dict. -/
def userMsg (body : Option ChatReqBody) : String :=
  pyStrip ((body.getD { message := none }).message.getD "")

/-- Embedding of the `chat` handler for `POST /api/chat`: validates the
message, appends the user turn, calls the gateway on `get_history()` with
temperature 0.7 and `max_tokens` 400, appends the assistant turn on success,
and shapes the status code and JSON body as in the source. -/
def chat (g : Gateway) (s : Session) (body : Option ChatReqBody) :
    Session × ℕ × ChatBodyOut :=
  let user_msg := userMsg body
  if user_msg = "" then
    (s, 400, ChatBodyOut.failure "Mensaje vacío")
  else
    let s1 := add_message s "user" user_msg
    let gh := get_history s1
    match g { messages := gh.2, temperature := 7/10, maxTokens := 400 } with
    | Except.error e => (gh.1, 500, ChatBodyOut.failure e)
    | Except.ok reply =>
        (add_message gh.1 "assistant" reply, 200, ChatBodyOut.success reply)

/-- Parsed JSON body of `POST /api/ai-recommendation`.  Every field is
extracted with `.get`, hence optional; a present field carries the textual
rendering that f-string interpolation gives its JSON value (for example
`"0.9"` for the number 0.9). -/
structure RecReqBody where
  crop_name : Option String
  feasibility_level : Option String
  feasibility_score : Option String
  temperature : Option String
  soil_moisture : Option String
  precipitation : Option String
  location_name : Option String
deriving DecidableEq, Repr

instance : Inhabited RecReqBody :=
  ⟨{ crop_name := none, feasibility_level := none, feasibility_score := none,
     temperature := none, soil_moisture := none, precipitation := none,
     location_name := none }⟩

/-- Rendering of one optional value inside the f-string: a present value
interpolates its text, an absent one renders as the literal `None`
placeholder Python prints for the absent value. -/
def fstr (v : Option String) : String :=
  v.getD "None"

/-- The `user_prompt` f-string of the recommendation handler, with the seven
extracted fields interpolated in the fixed order of the template. -/
def buildUserPrompt (data : RecReqBody) : String :=
  "Para el cultivo " ++ fstr data.crop_name ++ " en " ++ fstr data.location_name ++
  ": Viabilidad " ++ fstr data.feasibility_level ++ " (puntuación " ++
  fstr data.feasibility_score ++ "). Condiciones: " ++ fstr data.temperature ++
  "°C, humedad del suelo " ++ fstr data.soil_moisture ++ "%, precipitación " ++
  fstr data.precipitation ++ " mm. ¿Qué recomendaciones puedes dar al agricultor?"

/-- The gateway request built by the recommendation handler: a fresh two-turn
message list with temperature 0.7 and `max_tokens` 200, independent of the
session. -/
def recRequest (data : RecReqBody) : GatewayReq :=
  { messages := [systemTurn, { role := "user", content := buildUserPrompt data }],
    temperature := 7/10, maxTokens := 200 }

/-- JSON response bodies of the recommendation handler: `success m` is
`{"message": m}` and `failure e` is `{"error": e}`. -/
inductive RecBodyOut
  | success (message : String)
  | failure (error : String)
deriving DecidableEq, Repr

/-- Embedding of the `ai_recommendation` handler for
`POST /api/ai-recommendation`: builds the one-shot prompt, calls the gateway,
and returns the trimmed reply or the stringified error; the session is never
touched. -/
def ai_recommendation (g : Gateway) (s : Session) (body : Option RecReqBody) :
    Session × ℕ × RecBodyOut :=
  let data := body.getD default
  match g (recRequest data) with
  | Except.ok content => (s, 200, RecBodyOut.success (pyStrip content))
  | Except.error e => (s, 500, RecBodyOut.failure e)

/-- Spec-side template of §4.2: the fixed sentence fragments of the
recommendation prompt, in order, with one interpolation slot between
consecutive fragments. -/
def promptTemplate : List String :=
  ["Para el cultivo ", " en ", ": Viabilidad ", " (puntuación ",
   "). Condiciones: ", "°C, humedad del suelo ", "%, precipitación ",
   " mm. ¿Qué recomendaciones puedes dar al agricultor?"]

/-- Spec-side order of the seven Recommendation Request fields as they are
interpolated into the template. -/
def recFields (data : RecReqBody) : List (Option String) :=
  [data.crop_name, data.location_name, data.feasibility_level,
   data.feasibility_score, data.temperature, data.soil_moisture,
   data.precipitation]

/-- Spec-side interpolation: alternate template fragments with rendered
values, ending with the final fragment. -/
def interpolate : List String → List String → String
  | [], _ => ""
  | [t], _ => t
  | t :: ts, [] => t ++ interpolate ts []
  | t :: ts, v :: vs => t ++ v ++ interpolate ts vs

/-- Iterated `add_message`: perform one append per (role, content) pair, in
order. -/
def foldAdds (s : Session) (ms : List (String × String)) : Session :=
  ms.foldl (fun t p => add_message t p.1 p.2) s

/-- Session states reachable through the operations of the app, starting from
a fresh session without a stored history. -/
inductive Reachable : Session → Prop where
  | init : Reachable none
  | get {s : Session} : Reachable s → Reachable (get_history s).1
  | add {s : Session} (role content : String) :
      Reachable s → Reachable (add_message s role content)
  | visit {s : Session} (q : Option String) :
      Reachable s → Reachable (index s q)
  | chatStep {s : Session} (g : Gateway) (body : Option ChatReqBody) :
      Reachable s → Reachable (chat g s body).1
  | recStep {s : Session} (g : Gateway) (body : Option RecReqBody) :
      Reachable s → Reachable (ai_recommendation g s body).1

/-- Invariant on session states: whenever a history is stored, it starts with
the system turn (and in particular is non-empty). -/
def HistOk (s : Session) : Prop :=
  ∀ h : List Turn, s = some h → h.head? = some systemTurn

lemma histOk_none : HistOk none := by
  intro h hh
  cases hh

lemma get_history_histOk {s : Session} (hs : HistOk s) :
    HistOk (get_history s).1 ∧ (get_history s).2.head? = some systemTurn := by
  cases s with
  | none =>
      refine ⟨?_, rfl⟩
      intro h hh
      simp only [get_history] at hh
      cases hh
      rfl
  | some h =>
      have hh := hs h rfl
      exact ⟨fun h2 hh2 => by cases hh2; exact hh, hh⟩

lemma add_message_histOk {s : Session} (hs : HistOk s)
    (role content : String) : HistOk (add_message s role content) := by
  intro h2 hh2
  have hhead := (get_history_histOk hs).2
  simp only [add_message] at hh2
  cases hh2
  cases hlist : (get_history s).2 with
  | nil => rw [hlist] at hhead; cases hhead
  | cons a t =>
      rw [hlist] at hhead
      simpa using hhead

lemma index_histOk {s : Session} (hs : HistOk s) (q : Option String) :
    HistOk (index s q) := by
  unfold index
  split
  · exact histOk_none
  · exact hs

/-- Unfolding lemma for the chat handler, with the two calls to the history
manager on the valid path computed out. -/
lemma chat_eq (g : Gateway) (s : Session) (body : Option ChatReqBody) :
    chat g s body =
      if userMsg body = "" then (s, 400, ChatBodyOut.failure "Mensaje vacío")
      else
        match g (GatewayReq.mk ((get_history s).2 ++ [⟨"user", userMsg body⟩])
            (7/10) 400) with
        | Except.error e =>
            (some ((get_history s).2 ++ [⟨"user", userMsg body⟩]), 500,
              ChatBodyOut.failure e)
        | Except.ok reply =>
            (some (((get_history s).2 ++ [⟨"user", userMsg body⟩]) ++
              [⟨"assistant", reply⟩]), 200, ChatBodyOut.success reply) := by
  unfold chat add_message get_history
  rfl

lemma head_append_of_head {l : List Turn} (l2 : List Turn)
    (h : l.head? = some systemTurn) : (l ++ l2).head? = some systemTurn := by
  cases l with
  | nil => simp at h
  | cons a t => simpa using h

lemma chat_histOk {s : Session} (hs : HistOk s) (g : Gateway)
    (body : Option ChatReqBody) : HistOk (chat g s body).1 := by
  rw [chat_eq]
  have hhead := (get_history_histOk hs).2
  split
  · exact hs
  · split <;>
      (intro h2 hh2
       injection hh2 with hh
       subst hh
       solve_by_elim [head_append_of_head])

lemma ai_recommendation_eq (g : Gateway) (s : Session)
    (body : Option RecReqBody) :
    ai_recommendation g s body =
      match g (recRequest (body.getD default)) with
      | Except.ok content => (s, 200, RecBodyOut.success (pyStrip content))
      | Except.error e => (s, 500, RecBodyOut.failure e) := rfl

lemma ai_recommendation_fst (g : Gateway) (s : Session)
    (body : Option RecReqBody) : (ai_recommendation g s body).1 = s := by
  rw [ai_recommendation_eq]
  split <;> rfl

lemma ai_recommendation_histOk {s : Session} (hs : HistOk s) (g : Gateway)
    (body : Option RecReqBody) : HistOk (ai_recommendation g s body).1 := by
  rw [ai_recommendation_fst]
  exact hs

lemma reachable_histOk {s : Session} (hs : Reachable s) : HistOk s := by
  induction hs with
  | init => exact histOk_none
  | get _ ih => exact (get_history_histOk ih).1
  | add role content _ ih => exact add_message_histOk ih role content
  | visit q _ ih => exact index_histOk ih q
  | chatStep g body _ ih => exact chat_histOk ih g body
  | recStep g body _ ih => exact ai_recommendation_histOk ih g body

/-- C1: for every reachable session state, `get_history` returns a non-empty
sequence whose first element is the system turn; on a session with no stored
history it initializes the history to exactly the one-element seed list,
stores it back, and returns it, and on a session with a stored history it
returns the stored sequence unchanged. -/
theorem get_history_spec (s : Session) (hs : Reachable s) :
    (get_history s).2 ≠ [] ∧
    (get_history s).2.head? = some { role := "system", content := SYSTEM_PROMPT } ∧
    (s = none →
      get_history s =
        (some [⟨"system", SYSTEM_PROMPT⟩], [⟨"system", SYSTEM_PROMPT⟩])) ∧
    ∀ h : List Turn, s = some h → get_history s = (some h, h) := by
  have hok := reachable_histOk hs
  have hhead := (get_history_histOk hok).2
  refine ⟨?_, hhead, ?_, ?_⟩
  · intro hnil
    rw [hnil] at hhead
    simp at hhead
  · intro h
    subst h
    rfl
  · intro h hh
    subst hh
    rfl

/-- Witness for C1 at the fresh session: the history is initialized to the
single system turn, stored back and returned. -/
theorem get_history_spec_witness :
    get_history none =
      (some [⟨"system", SYSTEM_PROMPT⟩], [⟨"system", SYSTEM_PROMPT⟩]) :=
  (get_history_spec none Reachable.init).2.2.1 rfl

/-- C2: `add_message` is append-only: it writes back exactly the previous
history (as returned by `get_history`) with the single new turn appended at
the end, the new stored history read back is that appended list, and any
sequence of N adds grows the history length by exactly N. -/
theorem add_message_append_only (s : Session) (role content : String) :
    add_message s role content =
      some ((get_history s).2 ++ [{ role := role, content := content }]) ∧
    (get_history (add_message s role content)).2 =
      (get_history s).2 ++ [{ role := role, content := content }] ∧
    ∀ ms : List (String × String),
      (get_history (foldAdds s ms)).2.length =
        (get_history s).2.length + ms.length := by
  refine ⟨rfl, rfl, ?_⟩
  intro ms
  induction ms generalizing s with
  | nil => simp [foldAdds]
  | cons p t ih =>
      have hstep : foldAdds s (p :: t) = foldAdds (add_message s p.1 p.2) t := rfl
      have hone : (get_history (add_message s p.1 p.2)).2.length =
          (get_history s).2.length + 1 := by
        simp [add_message, get_history]
      rw [hstep, ih (add_message s p.1 p.2), hone]
      simp [Nat.add_assoc, Nat.add_comm]

/-- C9: history reset via `GET /?new=1` is idempotent and total: resetting
twice equals resetting once for any query value, resetting always leaves no
stored history (also when none was stored), it never fails, and the next
`get_history` reinitializes the history to the single system turn. -/
theorem reset_idempotent (s : Session) (q : Option String) :
    index (index s q) q = index s q ∧
    index s (some "1") = none ∧
    index none (some "1") = none ∧
    get_history (index s (some "1")) =
      (some [⟨"system", SYSTEM_PROMPT⟩], [⟨"system", SYSTEM_PROMPT⟩]) := by
  refine ⟨?_, ?_, rfl, ?_⟩
  · by_cases h : q = some "1" <;> simp [index, h]
  · simp [index]
  · simp [index, get_history, systemTurn]

/-- C10: a `POST /api/chat` request with an absent or unparseable JSON body is
coerced to the empty object, behaves exactly like a missing message (status
400 with the fixed error body), and leaves the stored history unchanged. -/
theorem chat_unparseable_body (g : Gateway) (s : Session) :
    chat g s none = (s, 400, ChatBodyOut.failure "Mensaje vacío") ∧
    chat g s (some { message := none }) = chat g s none ∧
    (chat g s none).1 = s := by
  have h : userMsg none = "" := rfl
  refine ⟨?_, rfl, ?_⟩
  · rw [chat_eq, if_pos h]
  · rw [chat_eq, if_pos h]

/-- C3: a `POST /api/chat` request whose body lacks a message or whose
message is empty after stripping whitespace gets status 400 with exactly the
body `{"ok": false, "error": "Mensaje vacío"}` and an unchanged session, and
conversely the handler answers 400 only in that empty-message case and only
with that body. -/
theorem chat_empty_message (g : Gateway) (s : Session)
    (body : Option ChatReqBody) :
    (userMsg body = "" →
      chat g s body = (s, 400, ChatBodyOut.failure "Mensaje vacío")) ∧
    ((chat g s body).2.1 = 400 →
      userMsg body = "" ∧
      chat g s body = (s, 400, ChatBodyOut.failure "Mensaje vacío")) := by
  constructor
  · intro h
    rw [chat_eq, if_pos h]
  · rw [chat_eq]
    split
    · intro _
      exact ⟨by assumption, rfl⟩
    · split
      · intro hh
        simp at hh
      · intro hh
        simp at hh

/-- Witness for C3: a message made only of whitespace yields the 400 response
with the fixed Spanish error body. -/
theorem chat_empty_message_witness :
    chat (fun _ => Except.ok "x") none (some { message := some "  " }) =
      (none, 400, ChatBodyOut.failure "Mensaje vacío") :=
  (chat_empty_message (fun _ => Except.ok "x") none
    (some { message := some "  " })).1 (by decide)

/-- C4: on a valid non-empty message, when the gateway succeeds on the full
history (previous history plus the user turn) at temperature 0.7 and output
cap 400, the handler stores the history with the user turn and then the
assistant turn appended, and answers 200 with `{"ok": true, "reply": r}`; on
a fresh session the stored history afterwards is exactly the three turns
system, user, assistant. -/
theorem chat_gateway_success (g : Gateway) (s : Session)
    (body : Option ChatReqBody) (reply : String)
    (hmsg : userMsg body ≠ "")
    (hg : g (GatewayReq.mk ((get_history s).2 ++ [⟨"user", userMsg body⟩])
      (7/10) 400) = Except.ok reply) :
    chat g s body =
      (some (((get_history s).2 ++ [⟨"user", userMsg body⟩]) ++
        [⟨"assistant", reply⟩]), 200, ChatBodyOut.success reply) ∧
    (s = none →
      (chat g s body).1 =
        some [systemTurn, ⟨"user", userMsg body⟩, ⟨"assistant", reply⟩]) := by
  have hmain : chat g s body =
      (some (((get_history s).2 ++ [⟨"user", userMsg body⟩]) ++
        [⟨"assistant", reply⟩]), 200, ChatBodyOut.success reply) := by
    rw [chat_eq, if_neg hmsg, hg]
  refine ⟨hmain, ?_⟩
  intro h
  subst h
  rw [hmain]
  rfl

/-- Witness for C4: the spec scenario, a fresh session, message `Hola` and a
stubbed gateway; the response is 200 with the stubbed reply and the stored
history is exactly system, user, assistant. -/
theorem chat_gateway_success_witness :
    chat (fun _ => Except.ok "¡Hola! ¿En qué puedo ayudarte?") none
      (some { message := some "Hola" }) =
      (some [systemTurn, ⟨"user", "Hola"⟩,
        ⟨"assistant", "¡Hola! ¿En qué puedo ayudarte?"⟩], 200,
        ChatBodyOut.success "¡Hola! ¿En qué puedo ayudarte?") := by
  have h := (chat_gateway_success
    (fun _ => Except.ok "¡Hola! ¿En qué puedo ayudarte?") none
    (some { message := some "Hola" }) "¡Hola! ¿En qué puedo ayudarte?"
    (by decide) rfl).1
  rw [h]
  rfl

/-- C5: on a valid non-empty message, when the gateway raises, the handler
answers 500 with `{"ok": false, "error": e}` and the user turn appended
before the failing call stays in the stored history with no paired assistant
turn; on a fresh session the stored history afterwards is exactly the two
turns system, user. -/
theorem chat_gateway_failure (g : Gateway) (s : Session)
    (body : Option ChatReqBody) (e : String)
    (hmsg : userMsg body ≠ "")
    (hg : g (GatewayReq.mk ((get_history s).2 ++ [⟨"user", userMsg body⟩])
      (7/10) 400) = Except.error e) :
    chat g s body =
      (some ((get_history s).2 ++ [⟨"user", userMsg body⟩]), 500,
        ChatBodyOut.failure e) ∧
    (s = none →
      (chat g s body).1 = some [systemTurn, ⟨"user", userMsg body⟩]) := by
  have hmain : chat g s body =
      (some ((get_history s).2 ++ [⟨"user", userMsg body⟩]), 500,
        ChatBodyOut.failure e) := by
    rw [chat_eq, if_neg hmsg, hg]
  refine ⟨hmain, ?_⟩
  intro h
  subst h
  rw [hmain]
  rfl

/-- Witness for C5: a fresh session and a gateway stub that raises; the
response is 500 with the stringified error and the stored history keeps the
orphaned user turn, so it is exactly system, user. -/
theorem chat_gateway_failure_witness :
    chat (fun _ => Except.error "boom") none
      (some { message := some "Hola" }) =
      (some [systemTurn, ⟨"user", "Hola"⟩], 500, ChatBodyOut.failure "boom") := by
  have h := (chat_gateway_failure (fun _ => Except.error "boom") none
    (some { message := some "Hola" }) "boom" (by decide) rfl).1
  rw [h]
  rfl

set_option maxRecDepth 10000 in
/-- C6: the recommendation prompt builder is a pure deterministic function of
the seven request fields: it equals the interpolation of the fixed Spanish
sentence template over exactly those seven rendered values in the fixed
order (absent fields rendering as the literal `None` placeholder), any two
requests with equal fields yield equal prompts, and on the concrete spec
scenario it produces the expected sentence. -/
theorem buildUserPrompt_template (data : RecReqBody) :
    buildUserPrompt data =
      interpolate promptTemplate ((recFields data).map fstr) ∧
    (∀ d : RecReqBody, recFields d = recFields data →
      buildUserPrompt d = buildUserPrompt data) ∧
    buildUserPrompt (RecReqBody.mk (some "maíz") (some "alta") (some "0.9")
        (some "25") (some "40") (some "120") (some "Valle")) =
      "Para el cultivo maíz en Valle: Viabilidad alta (puntuación 0.9). Condiciones: 25°C, humedad del suelo 40%, precipitación 120 mm. ¿Qué recomendaciones puedes dar al agricultor?" := by
  refine ⟨?_, ?_, by decide⟩
  · simp only [buildUserPrompt, interpolate, promptTemplate, recFields,
      List.map]
    simp [String.append_assoc]
  · intro d hd
    obtain ⟨c, lev, sc, t, so, p, loc⟩ := d
    obtain ⟨c2, lev2, sc2, t2, so2, p2, loc2⟩ := data
    simp only [recFields, List.cons.injEq, and_true] at hd
    obtain ⟨h1, h2, h3, h4, h5, h6, h7⟩ := hd
    subst h1; subst h2; subst h3; subst h4; subst h5; subst h6; subst h7
    rfl

/-- Witness for C6 at the all-absent request: the built prompt equals the
template interpolation with the `None` placeholder in every slot. -/
theorem buildUserPrompt_template_witness :
    buildUserPrompt (RecReqBody.mk none none none none none none none) =
      interpolate promptTemplate
        ((recFields (RecReqBody.mk none none none none none none none)).map
          fstr) :=
  (buildUserPrompt_template (RecReqBody.mk none none none none none none none)).1

/-- C7: the recommendation handler never aborts on absent fields; when the
gateway succeeds it answers 200 with `{"message": m}` where m is the reply
with surrounding whitespace stripped, and when the gateway raises it answers
500 with `{"error": e}`. -/
theorem ai_recommendation_status (g : Gateway) (s : Session)
    (body : Option RecReqBody) :
    (∀ m, g (recRequest (body.getD default)) = Except.ok m →
      ai_recommendation g s body = (s, 200, RecBodyOut.success (pyStrip m))) ∧
    (∀ e, g (recRequest (body.getD default)) = Except.error e →
      ai_recommendation g s body = (s, 500, RecBodyOut.failure e)) := by
  constructor <;> intro x hx <;> rw [ai_recommendation_eq, hx]

/-- Witness for C7: a request body with every field absent still succeeds
with 200 and the stripped stubbed reply. -/
theorem ai_recommendation_status_witness :
    ai_recommendation (fun _ => Except.ok " Riegue moderadamente. ") none
      (some default) =
      (none, 200, RecBodyOut.success "Riegue moderadamente.") := by
  have h := (ai_recommendation_status
    (fun _ => Except.ok " Riegue moderadamente. ") none (some default)).1
    " Riegue moderadamente. " rfl
  rw [h]
  rfl

/-- C8: the recommendation handler never reads or writes the conversation
history: the stored history is identical before and after the request, the
message list sent to the gateway is exactly the fresh two-turn list of the
system prompt and the built prompt, and the response is independent of the
session state. -/
theorem ai_recommendation_frame (g : Gateway) (s : Session)
    (body : Option RecReqBody) :
    (ai_recommendation g s body).1 = s ∧
    (recRequest (body.getD default)).messages =
      [⟨"system", SYSTEM_PROMPT⟩, ⟨"user", buildUserPrompt (body.getD default)⟩] ∧
    ∀ t : Session,
      (ai_recommendation g t body).2 = (ai_recommendation g s body).2 := by
  refine ⟨ai_recommendation_fst g s body, rfl, ?_⟩
  intro t
  rcases hgr : g (recRequest (body.getD default)) with e | c <;>
    simp [ai_recommendation_eq, hgr]

end OpenView
